import Mathlib

/-!
# Verification of the Poloniex exchange client (`Poloniex Class/poloniex.py`)

Shallow embedding of the signed-request / retry / rate-limit pipeline of the
`Poloniex` class.  Python floats returned by `time.time()` are modelled as
rationals, byte strings as `List Nat` (each entry a byte value), Python dicts
(insertion ordered) as association lists, and raised exceptions as the
`Except.error` constructor of each operation's result.  The wall clock is
explicit state: `time.time()` reads it and `time.sleep(d)` advances it by `d`.

The second file of the repository, `venv/poloniex.py`, is an earlier draft of
the same class that does not run (it references undefined names such as
`Decimal.decimal`, `hashlib`, `ContentToShortError`, `self.public.query`);
all claims cite `Poloniex Class/poloniex.py`, which is embedded here.
-/

namespace Poloniex

/-- A Python `dict` with string keys and string values, in insertion order.
(Request parameter values are either strings already or are converted by
`urlencode`/`requests` via `str`; we store the converted form.) -/
abbrev Dict := List (String × String)

/-- `d[k] = v` for a Python dict: overwrite in place if the key is present
(keeping its position), otherwise append at the end (insertion order). -/
def dictSet : Dict → String → String → Dict
  | [], k, v => [(k, v)]
  | (k0, v0) :: rest, k, v =>
    if k0 = k then (k, v) :: rest else (k0, v0) :: dictSet rest k v

/-- `int(q)` in Python: truncation toward zero. -/
def pyInt (q : ℚ) : Int := if q < 0 then Int.ceil q else Int.floor q

/-- The exceptions distinguished by `public_query`/`signed_query`.
`urlError`, `httpError` and `contentTooShort` are the
`(URLError, HTTPError, ContentTooShortError)` tuple named in the `except`
clauses; `jsonDecodeError` is what `json.loads`/`Response.json` raise on a
body that is not valid JSON; `requestsException` stands for the exception
classes raised by `requests.post`, none of which are in the `except` tuple. -/
inductive PyExc where
  | urlError
  | httpError (code : Nat)
  | contentTooShort
  | jsonDecodeError
  | requestsException
deriving DecidableEq, Repr

/-- Whether an exception is matched by
`except (URLError, HTTPError, ContentTooShortError)`. -/
def isCaught : PyExc → Bool
  | .urlError => true
  | .httpError _ => true
  | .contentTooShort => true
  | .jsonDecodeError => false
  | .requestsException => false

/-- `err.code` when present (`HTTPError` has a `code` attribute; the others
used here do not). -/
def excCode : PyExc → Option Nat
  | .httpError c => some c
  | _ => none

/-- The test `hasattr(err, 'code') and 500 <= err.code < 600`. -/
def isServerError (e : PyExc) : Bool :=
  match excCode e with
  | some c => decide (500 ≤ c) && decide (c < 600)
  | none => false

/-- An HTTP response body, by whether it is valid JSON.  `json.loads` (and
`Response.json`) succeed exactly on the first form. -/
inductive Body where
  | jsonDict (d : Dict)
  | malformed (raw : String)
deriving DecidableEq, Repr

/-- `json.loads` / `Response.json`: decode a body, raising `JSONDecodeError`
when it is not valid JSON. -/
def json_loads : Body → Except PyExc Dict
  | .jsonDict d => .ok d
  | .malformed _ => .error .jsonDecodeError

/-- Outcome of one network attempt (`urllib.request.urlopen(...).read()` for
the public API, `requests.post` for the trading API): a body, or a raised
exception. -/
inductive FetchResult where
  | ok (body : Body)
  | exc (e : PyExc)
deriving DecidableEq, Repr

/-- A retriable failed attempt: a raised exception that the `except` clause
catches and that carries a 5xx `code`. -/
def is5xx : FetchResult → Bool
  | .ok _ => false
  | .exc e => isCaught e && isServerError e

/-! ## Rate limiter (`Poloniex.rate_limit`, lines 74-89) -/

/-- One call of the static method `rate_limit` as a pure step on the class
attribute `Poloniex.rate_timer`, given the current value of `time.time()`.
Returns the new timer list and the duration slept:

    Poloniex.rate_timer.append(time.time())
    if len(Poloniex.rate_timer) > 4:
        diff = Poloniex.rate_timer[4] - Poloniex.rate_timer[0]
        if diff <= 1:
            time.sleep(1-diff)
        Poloniex.rate_timer.pop(0)
-/
def rate_limit (timer : List ℚ) (now : ℚ) : List ℚ × ℚ :=
  let t := timer ++ [now]
  if 4 < t.length then
    let diff := t.getD 4 0 - t.getD 0 0
    (t.drop 1, if diff ≤ 1 then 1 - diff else 0)
  else
    (t, 0)

/-- `rate_limit` as one admission step of a clocked run: the timestamp
recorded is the current clock, and the sleep advances the clock.  The pair is
`(rate_timer, clock)`. -/
def admitClocked (st : List ℚ × ℚ) : List ℚ × ℚ :=
  ((rate_limit st.1 st.2).1, st.2 + (rate_limit st.1 st.2).2)

/-- `n` back-to-back admissions: each call is issued the instant the previous
one returns, so no time passes between calls except the limiter's own sleeps. -/
def iterAdmit : Nat → List ℚ × ℚ → List ℚ × ℚ
  | 0, st => st
  | n + 1, st => iterAdmit n (admitClocked st)

/-! ## Byte encodings

`bytes(secret_key, 'latin-1')` (line 41), `.encode()` (line 131, UTF-8) and
`urlencode` (line 131, `urllib.parse.urlencode` with `quote_plus`). -/

/-- `bytes(s, 'latin-1')`: the code-point byte of every character.  (For a
character above `U+00FF` the Python call raises `UnicodeEncodeError`; every
secret used in this development is ASCII, where the projection is total.) -/
def latin1Encode (s : String) : List Nat := s.toList.map Char.toNat

/-- The UTF-8 bytes of one character. -/
def utf8Bytes (c : Char) : List Nat :=
  let n := c.toNat
  if n < 0x80 then [n]
  else if n < 0x800 then [0xC0 + n / 64, 0x80 + n % 64]
  else if n < 0x10000 then [0xE0 + n / 4096, 0x80 + n / 64 % 64, 0x80 + n % 64]
  else [0xF0 + n / 262144, 0x80 + n / 4096 % 64, 0x80 + n / 64 % 64, 0x80 + n % 64]

/-- `str.encode()`: UTF-8 bytes of a string. -/
def strEncode (s : String) : List Nat := (s.toList.map utf8Bytes).flatten

/-- Uppercase hex digit (for percent-escapes). -/
def hexDigitU (n : Nat) : Char := "0123456789ABCDEF".toList.getD n '0'

/-- Lowercase hex digit (for `hexdigest`). -/
def hexDigitL (n : Nat) : Char := "0123456789abcdef".toList.getD n '0'

/-- `%XX` escape of one byte, as produced by `urllib.parse.quote_plus`. -/
def percentByte (b : Nat) : String := String.mk ['%', hexDigitU (b / 16), hexDigitU (b % 16)]

/-- The characters `quote_plus` leaves unescaped (ASCII alphanumerics and
`_.-~`). -/
def isUrlSafe (c : Char) : Bool := c.isAlphanum || c = '_' || c = '.' || c = '-' || c = '~'

/-- `urllib.parse.quote_plus`: space becomes `+`, safe characters pass
through, everything else is percent-escaped byte by byte (UTF-8). -/
def quote_plus (s : String) : String :=
  String.join (s.toList.map fun c =>
    if c = ' ' then "+"
    else if isUrlSafe c then String.singleton c
    else String.join ((utf8Bytes c).map percentByte))

/-- `urllib.parse.urlencode` on an (insertion-ordered) dict:
`k1=v1&k2=v2&...` with `quote_plus` applied to keys and values. -/
def urlencode (d : Dict) : String :=
  String.intercalate "&" (d.map fun kv => quote_plus kv.1 ++ "=" ++ quote_plus kv.2)

/-! ## HMAC-SHA512

`hmac.new(self.secret_key, data, sha512)` at line 132 and its `.hexdigest()`
at line 133 call the standard library; they are embedded as FIPS 180-4
SHA-512 and FIPS 198-1 HMAC over byte lists, with 64-bit words as `Nat`
reduced modulo `2 ^ 64`. -/

/-- 64-bit addition, wrapping modulo `2 ^ 64`. -/
def add64 (a b : Nat) : Nat := (a + b) % 2 ^ 64

/-- Right rotation of a 64-bit word by `n`. -/
def rotr64 (n x : Nat) : Nat := (x >>> n ||| x <<< (64 - n)) % 2 ^ 64

/-- Bitwise complement of a 64-bit word. -/
def not64 (x : Nat) : Nat := Nat.xor x (2 ^ 64 - 1)

/-- `Ch(e,f,g) = (e ∧ f) ⊕ (¬e ∧ g)`. -/
def ch64 (e f g : Nat) : Nat := Nat.xor (Nat.land e f) (Nat.land (not64 e) g)

/-- `Maj(a,b,c) = (a ∧ b) ⊕ (a ∧ c) ⊕ (b ∧ c)`. -/
def maj64 (a b c : Nat) : Nat :=
  Nat.xor (Nat.land a b) (Nat.xor (Nat.land a c) (Nat.land b c))

/-- `Σ₀(x)` of SHA-512. -/
def bsig0 (x : Nat) : Nat := Nat.xor (rotr64 28 x) (Nat.xor (rotr64 34 x) (rotr64 39 x))

/-- `Σ₁(x)` of SHA-512. -/
def bsig1 (x : Nat) : Nat := Nat.xor (rotr64 14 x) (Nat.xor (rotr64 18 x) (rotr64 41 x))

/-- `σ₀(x)` of SHA-512. -/
def ssig0 (x : Nat) : Nat := Nat.xor (rotr64 1 x) (Nat.xor (rotr64 8 x) (x >>> 7))

/-- `σ₁(x)` of SHA-512. -/
def ssig1 (x : Nat) : Nat := Nat.xor (rotr64 19 x) (Nat.xor (rotr64 61 x) (x >>> 6))

/-- The eighty SHA-512 round constants. -/
def K512 : List Nat :=
  [4794697086780616226, 8158064640168781261, 13096744586834688815,
   16840607885511220156, 4131703408338449720, 6480981068601479193,
   10538285296894168987, 12329834152419229976, 15566598209576043074,
   1334009975649890238, 2608012711638119052, 6128411473006802146,
   8268148722764581231, 9286055187155687089, 11230858885718282805,
   13951009754708518548, 16472876342353939154, 17275323862435702243,
   1135362057144423861, 2597628984639134821, 3308224258029322869,
   5365058923640841347, 6679025012923562964, 8573033837759648693,
   10970295158949994411, 12119686244451234320, 12683024718118986047,
   13788192230050041572, 14330467153632333762, 15395433587784984357,
   489312712824947311, 1452737877330783856, 2861767655752347644,
   3322285676063803686, 5560940570517711597, 5996557281743188959,
   7280758554555802590, 8532644243296465576, 9350256976987008742,
   10552545826968843579, 11727347734174303076, 12113106623233404929,
   14000437183269869457, 14369950271660146224, 15101387698204529176,
   15463397548674623760, 17586052441742319658, 1182934255886127544,
   1847814050463011016, 2177327727835720531, 2830643537854262169,
   3796741975233480872, 4115178125766777443, 5681478168544905931,
   6601373596472566643, 7507060721942968483, 8399075790359081724,
   8693463985226723168, 9568029438360202098, 10144078919501101548,
   10430055236837252648, 11840083180663258601, 13761210420658862357,
   14299343276471374635, 14566680578165727644, 15097957966210449927,
   16922976911328602910, 17689382322260857208, 500013540394364858,
   748580250866718886, 1242879168328830382, 1977374033974150939,
   2944078676154940804, 3659926193048069267, 4368137639120453308,
   4836135668995329356, 5532061633213252278, 6448918945643986474,
   6902733635092675308, 7801388544844847127]

/-- The SHA-512 initial hash value. -/
def H512 : List Nat :=
  [7640891576956012808, 13503953896175478587,
   4354685564936845355, 11912009170470909681,
   5840696475078001361, 11170449401992604703,
   2270897969802886507, 6620516959819538809]

/-- Big-endian byte serialization of `n` into exactly `k` bytes. -/
def natToBytesBE : Nat → Nat → List Nat
  | 0, _ => []
  | k + 1, n => natToBytesBE k (n / 256) ++ [n % 256]

/-- Big-endian 64-bit word from a list of (at most eight) bytes. -/
def bytesToWord (bs : List Nat) : Nat := bs.foldl (fun acc b => acc * 256 + b) 0

/-- SHA-512 padding: append `0x80`, zero bytes, and the 128-bit big-endian
bit length, reaching a multiple of 128 bytes. -/
def sha512pad (msg : List Nat) : List Nat :=
  let L := msg.length
  msg ++ [0x80] ++ List.replicate ((128 - (L + 17) % 128) % 128) 0 ++ natToBytesBE 16 (8 * L)

/-- Group a padded byte list into big-endian 64-bit words. -/
def bytesToWords (bs : List Nat) : List Nat :=
  (List.range (bs.length / 8)).map fun i => bytesToWord ((bs.drop (8 * i)).take 8)

/-- Extend a 16-word block by `n` further schedule words
`W[t] = σ₁(W[t-2]) + W[t-7] + σ₀(W[t-15]) + W[t-16]`. -/
def extendW : Nat → List Nat → List Nat
  | 0, w => w
  | n + 1, w =>
    let t := w.length
    extendW n (w ++ [add64 (add64 (ssig1 (w.getD (t - 2) 0)) (w.getD (t - 7) 0))
                         (add64 (ssig0 (w.getD (t - 15) 0)) (w.getD (t - 16) 0))])

/-- One SHA-512 compression round on the state `[a,b,c,d,e,f,g,h]`, fed one
`(Kₜ, Wₜ)` pair. -/
def roundStep (st : List Nat) (kw : Nat × Nat) : List Nat :=
  let a := st.getD 0 0
  let b := st.getD 1 0
  let c := st.getD 2 0
  let d := st.getD 3 0
  let e := st.getD 4 0
  let f := st.getD 5 0
  let g := st.getD 6 0
  let h := st.getD 7 0
  let T1 := add64 h (add64 (bsig1 e) (add64 (ch64 e f g) (add64 kw.1 kw.2)))
  let T2 := add64 (bsig0 a) (maj64 a b c)
  [add64 T1 T2, a, b, c, add64 d T1, e, f, g]

/-- Process one 16-word block: run the 80 rounds and add the result into the
chaining value. -/
def processBlock (hv : List Nat) (block : List Nat) : List Nat :=
  let w := extendW 64 block
  List.zipWith add64 hv ((K512.zip w).foldl roundStep hv)

/-- SHA-512 of a byte list (FIPS 180-4): 64 bytes of digest. -/
def sha512 (msg : List Nat) : List Nat :=
  let ws := bytesToWords (sha512pad msg)
  let blocks := (List.range (ws.length / 16)).map fun i => (ws.drop (16 * i)).take 16
  ((blocks.foldl processBlock H512).map (natToBytesBE 8)).flatten

/-- HMAC-SHA512 (FIPS 198-1, block size 128 bytes) of a message under a key,
as computed by `hmac.new(key, msg, sha512)`. -/
def hmac_sha512 (key msg : List Nat) : List Nat :=
  let k0 := if 128 < key.length then sha512 key else key
  let k1 := k0 ++ List.replicate (128 - k0.length) 0
  sha512 ((k1.map fun b => Nat.xor b 0x5c) ++
          sha512 ((k1.map fun b => Nat.xor b 0x36) ++ msg))

/-- `.hexdigest()`: lowercase hex rendering of a digest. -/
def hexdigest (bs : List Nat) : String :=
  String.join (bs.map fun b => String.mk [hexDigitL (b / 16), hexDigitL (b % 16)])

/-- The signature computation of `signed_query` (lines 131-133), which is the
spec's contract `sign(secret, canonicalBody) -> hex signature`:
`hmac.new(secret, canonicalBody.encode(), sha512).hexdigest()`. -/
def sign (secret : List Nat) (canonicalBody : String) : String :=
  hexdigest (hmac_sha512 secret (strEncode canonicalBody))

/-! ## The signed envelope (`signed_query` lines 130-134) -/

/-- The signed envelope of one attempt: the nonce written into the dict, the
dict afterwards, the canonical body, and the `{Key, Sign}` headers. -/
structure Envelope where
  nonce : Int
  req : Dict
  data : String
  headers : List (String × String)
deriving DecidableEq, Repr

/-- Lines 130-134 of `signed_query`, run once per attempt:

    req['nonce'] = int(time.time()*1000)
    data = urlencode(req).encode()
    sign = hmac.new(self.secret_key, data, sha512)
    signature = sign.hexdigest()
    headers = dict(Key=self.api_key, Sign=signature)
-/
def build_envelope (secret : List Nat) (api_key : String) (req : Dict) (clock : ℚ) :
    Envelope :=
  let nonce := pyInt (clock * 1000)
  let req1 := dictSet req "nonce" (toString nonce)
  let data := urlencode req1
  ⟨nonce, req1, data, [("Key", api_key), ("Sign", sign secret data)]⟩

/-! ## Query state

The mutable context a query runs in: the wall clock, the class-level
`rate_timer`, and instrumentation counters for the observable effects — how
many network attempts were made, how many rate-limiter admissions ran, how
much time was spent in the `time.sleep(3)` retry backoff, and (for the
trading API) the envelope handed to `requests.post` on each attempt. -/

/-- What one `requests.post` call of `signed_query` was given: the nonce in
the body, the body dict itself, and the `{Key, Sign}` headers. -/
structure AttemptRec where
  nonce : Int
  reqDict : Dict
  headers : List (String × String)
deriving DecidableEq, Repr, Inhabited

/-- The explicit state threaded through a query. -/
structure St where
  clock : ℚ
  rateTimer : List ℚ
  attempts : Nat
  admits : Nat
  backoff : ℚ
  trace : List AttemptRec
deriving Repr

/-- `self.rate_limit()` acting on the query state: records the clock in the
timer and sleeps as `rate_limit` dictates. -/
def rateLimitSt (s : St) : St :=
  { s with rateTimer := (rate_limit s.rateTimer s.clock).1,
           clock := s.clock + (rate_limit s.rateTimer s.clock).2,
           admits := s.admits + 1 }

/-- `time.sleep(3)`, the fixed backoff before a retry. -/
def sleep3 (s : St) : St := { s with clock := s.clock + 3, backoff := s.backoff + 3 }

/-! ## `public_query` (lines 91-117) and `signed_query` (lines 119-150)

Each takes the network as a function from the attempt counter to that
attempt's outcome.  A raised exception that escapes the method is the
`Except.error` result; a `return` is `Except.ok`. -/

/-- `public_query(self, req, retries=2)`: rate-limit, fetch, and on a caught
5xx error with remaining budget sleep 3 s and recurse with `retries - 1`; on
any other caught error, or a caught error with spent budget, return
`dict([])`.  `json.loads(data)` runs outside the `try`, so a body that is
not valid JSON raises out of the method. -/
def public_query (fetch : Nat → FetchResult) : Nat → St → Except PyExc Dict × St
  | retries, s0 =>
    let s1 := rateLimitSt s0
    let r := fetch s1.attempts
    let s2 : St := { s1 with attempts := s1.attempts + 1 }
    match r with
    | .ok body => (json_loads body, s2)
    | .exc e =>
      if isCaught e then
        match retries with
        | retries' + 1 =>
          if isServerError e then public_query fetch retries' (sleep3 s2)
          else (Except.ok [], s2)
        | 0 => (Except.ok [], s2)
      else (Except.error e, s2)

/-- `signed_query(self, req, retries=2)`: write the nonce into `req`, build
the signed envelope, rate-limit, post, and decode with `ret.json()`.  The
retry handler is the same shape as `public_query`'s, and the recursive call
passes the mutated `req` (whose nonce the re-entry overwrites).  `ret.json()`
sits inside the `try`, but neither `JSONDecodeError` nor the exceptions of
`requests.post` are in the `except` tuple, so both raise out of the method. -/
def signed_query (secret : List Nat) (api_key : String) (post : Nat → FetchResult) :
    Dict → Nat → St → Except PyExc Dict × St
  | req, retries, s0 =>
    let env := build_envelope secret api_key req s0.clock
    let s1 := rateLimitSt s0
    let r := post s1.attempts
    let s2 : St := { s1 with attempts := s1.attempts + 1,
                             trace := s1.trace ++ [⟨env.nonce, env.req, env.headers⟩] }
    match r with
    | .ok body => (json_loads body, s2)
    | .exc e =>
      if isCaught e then
        match retries with
        | retries' + 1 =>
          if isServerError e then
            signed_query secret api_key post env.req retries' (sleep3 s2)
          else (Except.ok [], s2)
        | 0 => (Except.ok [], s2)
      else (Except.error e, s2)

/-! ## Client construction, credential rotation, textual representation
(`__init__` lines 39-47, `update_keys` lines 152-170, `__repr__` lines 49-54) -/

/-- A Python value held in the `secret_key` slot: `str` or `bytes`. -/
inductive PyVal where
  | str (s : String)
  | bytes (b : List Nat)
deriving DecidableEq, Repr

/-- The client's instance attributes relevant to the claims. -/
structure Client where
  api_key : String
  secret_key : PyVal
  connection : Bool
deriving DecidableEq, Repr

/-- `__init__(self, api_key, secret_key, auto_init=False)`.  The secret is
stored as `bytes(secret_key, 'latin-1')`.  When `auto_init` is set the
constructor calls `initialize()`, whose outcome is a network effect supplied
here as `initResult`; otherwise `connection = False`. -/
def Client.init (api_key secret_key : String) (auto_init initResult : Bool) : Client :=
  { api_key := api_key
    secret_key := .bytes (latin1Encode secret_key)
    connection := if auto_init then initResult else false }

/-- `update_keys(self, api, secret_key, auto_init=False)`.  Note line 165
stores the `secret_key` argument itself — a `str` — not its latin-1 bytes. -/
def update_keys (c : Client) (api secret_key : String) (auto_init initResult : Bool) :
    Client :=
  { c with api_key := api
           secret_key := .str secret_key
           connection := if auto_init then initResult else false }

/-- The key argument `hmac.new` accepts: a `bytes` key is used as is; a `str`
key makes `hmac.new` raise `TypeError` (`key: expected bytes or bytearray`). -/
def hmacKey : PyVal → Option (List Nat)
  | .bytes b => some b
  | .str _ => none

/-- Python's `repr` of a bytes object (printable ASCII rendered literally,
quote and backslash escaped, `\t`, `\n`, `\r`, and `\xNN` otherwise). -/
def pyBytesRepr (b : List Nat) : String :=
  "b\x27" ++
  String.join (b.map fun n =>
    if n = 39 then "\\\x27"
    else if n = 92 then "\\\\"
    else if n = 9 then "\\t"
    else if n = 10 then "\\n"
    else if n = 13 then "\\r"
    else if 32 ≤ n ∧ n ≤ 126 then String.singleton (Char.ofNat n)
    else "\\x" ++ String.mk [hexDigitL (n / 16), hexDigitL (n % 16)]) ++
  "\x27"

/-- `str` of the value interpolated by `"{s}".format(...)`. -/
def pyValStr : PyVal → String
  | .str s => s
  | .bytes b => pyBytesRepr b

/-- `__repr__`:

    return "{c} (Key: {a}, Secret: {s}, Connected: {con})".format(...)

with `c` the class name, `a = self.api_key`, `s = self.secret_key`,
`con = self.connection`. -/
def reprMethod (c : Client) : String :=
  "Poloniex" ++ " (Key: " ++ c.api_key ++ ", Secret: " ++ pyValStr c.secret_key ++
    ", Connected: " ++ (if c.connection then "True" else "False") ++ ")"

/-! ## Public request strings (`chart_data` lines 254-277,
`public_trade_history` lines 313-335) -/

/-- `str.join` called on a string iterable: the characters of the argument
interleaved with the receiver as separator.  (Its result is a new string;
the receiver is immutable.) -/
def pyStrJoin (sep : String) (iterable : String) : String :=
  String.intercalate sep (iterable.toList.map String.singleton)

/-- The `request` string `chart_data` passes to `self.public_query`
(line 277).  The three `request.join(...)` statements at lines 274-276
discard their results, exactly as in the source. -/
def chart_data_request (currency_pair : String) (period : Int)
    (start : String) (endT : String) : String :=
  let request := "returnChartData&currencyPair=" ++ currency_pair
  let _ := pyStrJoin request ("&start=" ++ start)
  let _ := pyStrJoin request ("&end=" ++ endT)
  let _ := pyStrJoin request ("&period=" ++ toString period)
  request

/-- The `request` string `public_trade_history` passes to
`self.public_query` (line 335); the two `request.join(...)` statements at
lines 333-334 discard their results. -/
def public_trade_history_request (currency_pair : String) (start : Int)
    (endT : ℚ) : String :=
  let request := "returnChartData&currencyPair=" ++ currency_pair
  let _ := pyStrJoin request ("&start=" ++ toString start)
  let _ := pyStrJoin request ("&end=" ++ toString endT)
  request

/-- The state after the attempt portion of one `public_query` entry: one
rate-limiter admission, then one fetch (attempt counter bumped). -/
def publicStep (s : St) : St :=
  { rateLimitSt s with attempts := s.attempts + 1 }

/-- The state after the attempt portion of one `signed_query` entry: one
admission, then one post whose envelope is recorded in the trace. -/
def signedStep (secret : List Nat) (api_key : String) (req : Dict) (s : St) : St :=
  let env := build_envelope secret api_key req s.clock
  { rateLimitSt s with
      attempts := s.attempts + 1
      trace := s.trace ++ [⟨env.nonce, env.req, env.headers⟩] }

/-! ## Concrete scenario for the nonce claim -/

/-- Two back-to-back successful `signed_query` calls during which
`time.time()` does not advance (rapid successive calls, or a stalled or
rolled-back clock): the nonces placed in the two request bodies.  No sleep
occurs in either call — the attempts succeed and the rate limiter holds
fewer than five timestamps — so the model clock stays at its initial value. -/
def frozenClockNonces : List Int :=
  let post : Nat → FetchResult := fun _ => .ok (.jsonDict [])
  let s0 : St := ⟨1700000000, [], 0, 0, 0, []⟩
  let req : Dict := [("command", "returnBalances")]
  let r1 := signed_query (latin1Encode "secret") "api" post req 2 s0
  let r2 := signed_query (latin1Encode "secret") "api" post req 2 r1.2
  r2.2.trace.map AttemptRec.nonce

/-! # Theorems -/

/-! ## State bookkeeping lemmas -/

theorem rateLimitSt_attempts (s : St) : (rateLimitSt s).attempts = s.attempts := rfl

theorem rateLimitSt_admits (s : St) : (rateLimitSt s).admits = s.admits + 1 := rfl

theorem rateLimitSt_trace (s : St) : (rateLimitSt s).trace = s.trace := rfl

theorem rateLimitSt_backoff (s : St) : (rateLimitSt s).backoff = s.backoff := rfl

theorem rate_limit_sleep_nonneg (timer : List ℚ) (now : ℚ) :
    0 ≤ (rate_limit timer now).2 := by
  simp only [rate_limit]
  split_ifs with h1 h2 <;> simp_all

theorem le_rateLimitSt_clock (s : St) : s.clock ≤ (rateLimitSt s).clock := by
  have := rate_limit_sleep_nonneg s.rateTimer s.clock
  simp only [rateLimitSt]
  linarith

theorem sleep3_attempts (s : St) : (sleep3 s).attempts = s.attempts := rfl

theorem sleep3_clock (s : St) : (sleep3 s).clock = s.clock + 3 := rfl

/-- A retriable attempt outcome is a caught exception with a 5xx code. -/
theorem is5xx_elim {r : FetchResult} (h : is5xx r = true) :
    ∃ e, r = .exc e ∧ isCaught e = true ∧ isServerError e = true := by
  cases r with
  | ok b => simp [is5xx] at h
  | exc e => exact ⟨e, rfl, by simpa [is5xx, Bool.and_eq_true] using h⟩

/-- Re-assigning the same key overwrites the previous assignment. -/
theorem dictSet_dictSet (d : Dict) (k v w : String) :
    dictSet (dictSet d k v) k w = dictSet d k w := by
  induction d with
  | nil => simp [dictSet]
  | cons p rest ih =>
    obtain ⟨k0, v0⟩ := p
    by_cases h : k0 = k
    · simp [dictSet, h]
    · simp [dictSet, h, ih]

/-- `int()` truncation is at most one above its argument. -/
theorem pyInt_le_add_one (q : ℚ) : (pyInt q : ℚ) ≤ q + 1 := by
  unfold pyInt
  split
  · exact (Int.ceil_lt_add_one q).le
  · have := Int.floor_le q
    linarith

/-- `int()` truncation is strictly above its argument minus one. -/
theorem sub_one_lt_pyInt (q : ℚ) : q - 1 < (pyInt q : ℚ) := by
  unfold pyInt
  split
  · have := Int.le_ceil q
    linarith
  · exact Int.sub_one_lt_floor q

/-- `int()` truncation is strictly monotone across a gap of at least two. -/
theorem pyInt_lt_pyInt {q r : ℚ} (h : q + 2 ≤ r) : pyInt q < pyInt r := by
  have h1 := pyInt_le_add_one q
  have h2 := sub_one_lt_pyInt r
  have : (pyInt q : ℚ) < (pyInt r : ℚ) := by linarith
  exact_mod_cast this

/-! ## One-step unfolding of the queries -/

theorem publicStep_attempts (s : St) : (publicStep s).attempts = s.attempts + 1 := rfl

theorem publicStep_backoff (s : St) : (publicStep s).backoff = s.backoff := rfl

theorem sleep3_backoff (s : St) : (sleep3 s).backoff = s.backoff + 3 := rfl

theorem signedStep_attempts (secret : List Nat) (api_key : String) (req : Dict)
    (s : St) : (signedStep secret api_key req s).attempts = s.attempts + 1 := rfl

theorem signedStep_backoff (secret : List Nat) (api_key : String) (req : Dict)
    (s : St) : (signedStep secret api_key req s).backoff = s.backoff := rfl

theorem signedStep_admits (secret : List Nat) (api_key : String) (req : Dict)
    (s : St) : (signedStep secret api_key req s).admits = s.admits + 1 := rfl

theorem signedStep_trace (secret : List Nat) (api_key : String) (req : Dict)
    (s : St) :
    (signedStep secret api_key req s).trace =
      s.trace ++ [⟨(build_envelope secret api_key req s.clock).nonce,
                   (build_envelope secret api_key req s.clock).req,
                   (build_envelope secret api_key req s.clock).headers⟩] := rfl

theorem le_signedStep_clock (secret : List Nat) (api_key : String) (req : Dict)
    (s : St) : s.clock ≤ (signedStep secret api_key req s).clock :=
  le_rateLimitSt_clock s

/-- `public_query` when the attempt returns a body. -/
theorem public_query_ok (fetch : Nat → FetchResult) (retries : Nat) (s : St)
    (body : Body) (h : fetch s.attempts = .ok body) :
    public_query fetch retries s = (json_loads body, publicStep s) := by
  conv_lhs => rw [public_query]
  simp only [rateLimitSt]
  rw [h]
  rfl

/-- `public_query` when the attempt raises a caught 5xx error and budget
remains: sleep 3 s and recurse with one fewer retry. -/
theorem public_query_retry (fetch : Nat → FetchResult) (r : Nat) (s : St)
    (e : PyExc) (h : fetch s.attempts = .exc e) (hc : isCaught e = true)
    (hs : isServerError e = true) :
    public_query fetch (r + 1) s = public_query fetch r (sleep3 (publicStep s)) := by
  conv_lhs => rw [public_query]
  simp only [rateLimitSt]
  rw [h]
  simp only [hc, hs, if_true]
  rfl

/-- `public_query` when the attempt raises a caught non-5xx error: return
`dict([])` at once. -/
theorem public_query_caught_stop (fetch : Nat → FetchResult) (retries : Nat)
    (s : St) (e : PyExc) (h : fetch s.attempts = .exc e) (hc : isCaught e = true)
    (hs : isServerError e = false) :
    public_query fetch retries s = (Except.ok [], publicStep s) := by
  conv_lhs => rw [public_query]
  simp only [rateLimitSt]
  rw [h]
  cases retries with
  | zero => simp only [hc]; rfl
  | succ r => simp only [hc, hs, Bool.false_eq_true, if_false]; rfl

/-- `public_query` when the attempt raises a caught error with budget 0:
return `dict([])` at once. -/
theorem public_query_budget_zero (fetch : Nat → FetchResult) (s : St) (e : PyExc)
    (h : fetch s.attempts = .exc e) (hc : isCaught e = true) :
    public_query fetch 0 s = (Except.ok [], publicStep s) := by
  conv_lhs => rw [public_query]
  simp only [rateLimitSt]
  rw [h]
  simp only [hc]
  rfl

/-- `signed_query` when the post returns a body. -/
theorem signed_query_ok (secret : List Nat) (api_key : String)
    (post : Nat → FetchResult) (req : Dict) (retries : Nat) (s : St)
    (body : Body) (h : post s.attempts = .ok body) :
    signed_query secret api_key post req retries s =
      (json_loads body, signedStep secret api_key req s) := by
  conv_lhs => rw [signed_query]
  simp only [rateLimitSt]
  rw [h]
  rfl

/-- `signed_query` when the post raises a caught 5xx error and budget
remains: sleep 3 s and recurse on the mutated `req` with one fewer retry. -/
theorem signed_query_retry (secret : List Nat) (api_key : String)
    (post : Nat → FetchResult) (req : Dict) (r : Nat) (s : St) (e : PyExc)
    (h : post s.attempts = .exc e) (hc : isCaught e = true)
    (hs : isServerError e = true) :
    signed_query secret api_key post req (r + 1) s =
      signed_query secret api_key post (build_envelope secret api_key req s.clock).req
        r (sleep3 (signedStep secret api_key req s)) := by
  conv_lhs => rw [signed_query]
  simp only [rateLimitSt]
  rw [h]
  simp only [hc, hs, if_true]
  rfl

/-- `signed_query` when the post raises a caught non-5xx error: return
`dict([])` at once. -/
theorem signed_query_caught_stop (secret : List Nat) (api_key : String)
    (post : Nat → FetchResult) (req : Dict) (retries : Nat) (s : St) (e : PyExc)
    (h : post s.attempts = .exc e) (hc : isCaught e = true)
    (hs : isServerError e = false) :
    signed_query secret api_key post req retries s =
      (Except.ok [], signedStep secret api_key req s) := by
  conv_lhs => rw [signed_query]
  simp only [rateLimitSt]
  rw [h]
  cases retries with
  | zero => simp only [hc]; rfl
  | succ r => simp only [hc, hs, Bool.false_eq_true, if_false]; rfl

/-- `signed_query` when the post raises a caught error with budget 0:
return `dict([])` at once. -/
theorem signed_query_budget_zero (secret : List Nat) (api_key : String)
    (post : Nat → FetchResult) (req : Dict) (s : St) (e : PyExc)
    (h : post s.attempts = .exc e) (hc : isCaught e = true) :
    signed_query secret api_key post req 0 s =
      (Except.ok [], signedStep secret api_key req s) := by
  conv_lhs => rw [signed_query]
  simp only [rateLimitSt]
  rw [h]
  simp only [hc]
  rfl

/-! ## Retry-policy induction lemmas -/

/-- First `K` attempts fail retriably, attempt `K` succeeds, budget at least
`K`: `public_query` returns the decoded body after exactly `K + 1` attempts
with `3K` seconds of retry backoff. -/
theorem public_query_success (fetch : Nat → FetchResult) (d : Dict) :
    ∀ (K retries : Nat) (s : St), K ≤ retries →
      (∀ i, i < K → is5xx (fetch (s.attempts + i)) = true) →
      fetch (s.attempts + K) = .ok (.jsonDict d) →
      (public_query fetch retries s).1 = Except.ok d ∧
      (public_query fetch retries s).2.attempts = s.attempts + (K + 1) ∧
      (public_query fetch retries s).2.backoff = s.backoff + 3 * K := by
  intro K
  induction K with
  | zero =>
    intro retries s _ _ hK
    rw [Nat.add_zero] at hK
    rw [public_query_ok fetch retries s _ hK]
    exact ⟨rfl, rfl, by simp [publicStep, rateLimitSt]⟩
  | succ k ih =>
    intro retries s hKr hfail hK
    obtain ⟨e, he, hce, hse⟩ := is5xx_elim (hfail 0 (Nat.succ_pos k))
    rw [Nat.add_zero] at he
    cases retries with
    | zero => exact absurd hKr (by omega)
    | succ r =>
      rw [public_query_retry fetch r s e he hce hse]
      have hstep : (sleep3 (publicStep s)).attempts = s.attempts + 1 := rfl
      have h1 : ∀ i, i < k → is5xx (fetch ((sleep3 (publicStep s)).attempts + i)) = true := by
        intro i hi
        rw [hstep]
        have h2 := hfail (i + 1) (by omega)
        rwa [show s.attempts + (i + 1) = s.attempts + 1 + i by omega] at h2
      have h2 : fetch ((sleep3 (publicStep s)).attempts + k) = .ok (.jsonDict d) := by
        rw [hstep]
        rwa [show s.attempts + (k + 1) = s.attempts + 1 + k by omega] at hK
      obtain ⟨c1, c2, c3⟩ := ih r (sleep3 (publicStep s)) (by omega) h1 h2
      refine ⟨c1, ?_, ?_⟩
      · rw [c2, hstep]
        omega
      · rw [c3, sleep3_backoff, publicStep_backoff]
        push_cast
        ring

/-- Every attempt up to the budget fails retriably: `public_query` returns
`dict([])` after exactly `retries + 1` attempts with `3 · retries` seconds of
retry backoff. -/
theorem public_query_exhaust (fetch : Nat → FetchResult) :
    ∀ (retries : Nat) (s : St),
      (∀ i, i ≤ retries → is5xx (fetch (s.attempts + i)) = true) →
      (public_query fetch retries s).1 = Except.ok [] ∧
      (public_query fetch retries s).2.attempts = s.attempts + (retries + 1) ∧
      (public_query fetch retries s).2.backoff = s.backoff + 3 * retries := by
  intro retries
  induction retries with
  | zero =>
    intro s hfail
    obtain ⟨e, he, hce, _⟩ := is5xx_elim (hfail 0 (le_refl 0))
    rw [Nat.add_zero] at he
    rw [public_query_budget_zero fetch s e he hce]
    exact ⟨rfl, rfl, by simp [publicStep, rateLimitSt]⟩
  | succ r ih =>
    intro s hfail
    obtain ⟨e, he, hce, hse⟩ := is5xx_elim (hfail 0 (Nat.zero_le _))
    rw [Nat.add_zero] at he
    rw [public_query_retry fetch r s e he hce hse]
    have hstep : (sleep3 (publicStep s)).attempts = s.attempts + 1 := rfl
    have h1 : ∀ i, i ≤ r → is5xx (fetch ((sleep3 (publicStep s)).attempts + i)) = true := by
      intro i hi
      rw [hstep]
      have h2 := hfail (i + 1) (by omega)
      rwa [show s.attempts + (i + 1) = s.attempts + 1 + i by omega] at h2
    obtain ⟨c1, c2, c3⟩ := ih (sleep3 (publicStep s)) h1
    refine ⟨c1, ?_, ?_⟩
    · rw [c2, hstep]
      omega
    · rw [c3, sleep3_backoff, publicStep_backoff]
      push_cast
      ring

/-- `signed_query` analogue of `public_query_success`. -/
theorem signed_query_success (secret : List Nat) (api_key : String)
    (post : Nat → FetchResult) (d : Dict) :
    ∀ (K retries : Nat) (req : Dict) (s : St), K ≤ retries →
      (∀ i, i < K → is5xx (post (s.attempts + i)) = true) →
      post (s.attempts + K) = .ok (.jsonDict d) →
      (signed_query secret api_key post req retries s).1 = Except.ok d ∧
      (signed_query secret api_key post req retries s).2.attempts =
        s.attempts + (K + 1) ∧
      (signed_query secret api_key post req retries s).2.backoff =
        s.backoff + 3 * K := by
  intro K
  induction K with
  | zero =>
    intro retries req s _ _ hK
    rw [Nat.add_zero] at hK
    rw [signed_query_ok secret api_key post req retries s _ hK]
    exact ⟨rfl, rfl, by simp [signedStep, rateLimitSt]⟩
  | succ k ih =>
    intro retries req s hKr hfail hK
    obtain ⟨e, he, hce, hse⟩ := is5xx_elim (hfail 0 (Nat.succ_pos k))
    rw [Nat.add_zero] at he
    cases retries with
    | zero => exact absurd hKr (by omega)
    | succ r =>
      rw [signed_query_retry secret api_key post req r s e he hce hse]
      have hstep : (sleep3 (signedStep secret api_key req s)).attempts =
          s.attempts + 1 := rfl
      have h1 : ∀ i, i < k →
          is5xx (post ((sleep3 (signedStep secret api_key req s)).attempts + i)) = true := by
        intro i hi
        rw [hstep]
        have h2 := hfail (i + 1) (by omega)
        rwa [show s.attempts + (i + 1) = s.attempts + 1 + i by omega] at h2
      have h2 : post ((sleep3 (signedStep secret api_key req s)).attempts + k) =
          .ok (.jsonDict d) := by
        rw [hstep]
        rwa [show s.attempts + (k + 1) = s.attempts + 1 + k by omega] at hK
      obtain ⟨c1, c2, c3⟩ :=
        ih r (build_envelope secret api_key req s.clock).req
          (sleep3 (signedStep secret api_key req s)) (by omega) h1 h2
      refine ⟨c1, ?_, ?_⟩
      · rw [c2, hstep]
        omega
      · rw [c3, sleep3_backoff, signedStep_backoff]
        push_cast
        ring

/-- `signed_query` analogue of `public_query_exhaust`. -/
theorem signed_query_exhaust (secret : List Nat) (api_key : String)
    (post : Nat → FetchResult) :
    ∀ (retries : Nat) (req : Dict) (s : St),
      (∀ i, i ≤ retries → is5xx (post (s.attempts + i)) = true) →
      (signed_query secret api_key post req retries s).1 = Except.ok [] ∧
      (signed_query secret api_key post req retries s).2.attempts =
        s.attempts + (retries + 1) ∧
      (signed_query secret api_key post req retries s).2.backoff =
        s.backoff + 3 * retries := by
  intro retries
  induction retries with
  | zero =>
    intro req s hfail
    obtain ⟨e, he, hce, _⟩ := is5xx_elim (hfail 0 (le_refl 0))
    rw [Nat.add_zero] at he
    rw [signed_query_budget_zero secret api_key post req s e he hce]
    exact ⟨rfl, rfl, by simp [signedStep, rateLimitSt]⟩
  | succ r ih =>
    intro req s hfail
    obtain ⟨e, he, hce, hse⟩ := is5xx_elim (hfail 0 (Nat.zero_le _))
    rw [Nat.add_zero] at he
    rw [signed_query_retry secret api_key post req r s e he hce hse]
    have hstep : (sleep3 (signedStep secret api_key req s)).attempts =
        s.attempts + 1 := rfl
    have h1 : ∀ i, i ≤ r →
        is5xx (post ((sleep3 (signedStep secret api_key req s)).attempts + i)) = true := by
      intro i hi
      rw [hstep]
      have h2 := hfail (i + 1) (by omega)
      rwa [show s.attempts + (i + 1) = s.attempts + 1 + i by omega] at h2
    obtain ⟨c1, c2, c3⟩ :=
      ih (build_envelope secret api_key req s.clock).req
        (sleep3 (signedStep secret api_key req s)) h1
    refine ⟨c1, ?_, ?_⟩
    · rw [c2, hstep]
      omega
    · rw [c3, sleep3_backoff, signedStep_backoff]
      push_cast
      ring

/-- `signed_query` when the post raises an uncaught exception: it propagates. -/
theorem signed_query_uncaught (secret : List Nat) (api_key : String)
    (post : Nat → FetchResult) (req : Dict) (retries : Nat) (s : St) (e : PyExc)
    (h : post s.attempts = .exc e) (hc : isCaught e = false) :
    signed_query secret api_key post req retries s =
      (Except.error e, signedStep secret api_key req s) := by
  conv_lhs => rw [signed_query]
  simp only [rateLimitSt]
  rw [h]
  simp only [hc, Bool.false_eq_true, if_false]
  rfl

theorem sleep3_trace (s : St) : (sleep3 s).trace = s.trace := rfl

theorem sleep3_admits (s : St) : (sleep3 s).admits = s.admits := rfl

/-! ## Trace lemmas for the signed pipeline -/

/-- Every record a `signed_query` run appends to the trace carries a body
that is the caller's dict with that attempt's own nonce written in, and
`{Key, Sign}` headers whose signature is the HMAC-SHA512 hex digest of the
url-encoding of that very body under the stored secret. -/
theorem signed_query_trace_mem (secret : List Nat) (api_key : String)
    (post : Nat → FetchResult) :
    ∀ (retries : Nat) (req : Dict) (s : St) (rec : AttemptRec),
      rec ∈ (signed_query secret api_key post req retries s).2.trace →
      rec ∈ s.trace ∨
        (rec.reqDict = dictSet req "nonce" (toString rec.nonce) ∧
         rec.headers =
           [("Key", api_key), ("Sign", sign secret (urlencode rec.reqDict))]) := by
  intro retries
  induction retries with
  | zero =>
    intro req s rec hmem
    have hbase : rec ∈ (signedStep secret api_key req s).trace →
        rec ∈ s.trace ∨
          (rec.reqDict = dictSet req "nonce" (toString rec.nonce) ∧
           rec.headers =
             [("Key", api_key), ("Sign", sign secret (urlencode rec.reqDict))]) := by
      intro hm
      rw [signedStep_trace] at hm
      rcases List.mem_append.1 hm with hm | hm
      · exact Or.inl hm
      · rw [List.mem_singleton] at hm
        subst hm
        exact Or.inr ⟨rfl, rfl⟩
    cases hr : post s.attempts with
    | ok body =>
      rw [signed_query_ok secret api_key post req 0 s body hr] at hmem
      exact hbase hmem
    | exc e =>
      by_cases hc : isCaught e = true
      · rw [signed_query_budget_zero secret api_key post req s e hr hc] at hmem
        exact hbase hmem
      · rw [signed_query_uncaught secret api_key post req 0 s e hr
          (Bool.not_eq_true _ ▸ hc)] at hmem
        exact hbase hmem
  | succ r ih =>
    intro req s rec hmem
    have hbase : rec ∈ (signedStep secret api_key req s).trace →
        rec ∈ s.trace ∨
          (rec.reqDict = dictSet req "nonce" (toString rec.nonce) ∧
           rec.headers =
             [("Key", api_key), ("Sign", sign secret (urlencode rec.reqDict))]) := by
      intro hm
      rw [signedStep_trace] at hm
      rcases List.mem_append.1 hm with hm | hm
      · exact Or.inl hm
      · rw [List.mem_singleton] at hm
        subst hm
        exact Or.inr ⟨rfl, rfl⟩
    cases hr : post s.attempts with
    | ok body =>
      rw [signed_query_ok secret api_key post req (r + 1) s body hr] at hmem
      exact hbase hmem
    | exc e =>
      by_cases hc : isCaught e = true
      · by_cases hs : isServerError e = true
        · rw [signed_query_retry secret api_key post req r s e hr hc hs] at hmem
          rcases ih (build_envelope secret api_key req s.clock).req
              (sleep3 (signedStep secret api_key req s)) rec hmem with hm | hP
          · rw [sleep3_trace] at hm
            exact hbase hm
          · right
            refine ⟨?_, hP.2⟩
            rw [hP.1]
            rw [show (build_envelope secret api_key req s.clock).req =
                  dictSet req "nonce"
                    (toString (build_envelope secret api_key req s.clock).nonce)
                from rfl]
            rw [dictSet_dictSet]
        · rw [signed_query_caught_stop secret api_key post req (r + 1) s e hr hc
            (Bool.not_eq_true _ ▸ hs)] at hmem
          exact hbase hmem
      · rw [signed_query_uncaught secret api_key post req (r + 1) s e hr
          (Bool.not_eq_true _ ▸ hc)] at hmem
        exact hbase hmem

/-- A run all of whose attempts fail retriably appends exactly
`retries + 1` fresh records, one admission each, whose nonces start at
`int(clock·1000)` and strictly increase (the 3-second backoff advances the
clock between attempts). -/
theorem signed_query_allfail (secret : List Nat) (api_key : String)
    (post : Nat → FetchResult) :
    ∀ (retries : Nat) (req : Dict) (s : St),
      (∀ i, i ≤ retries → is5xx (post (s.attempts + i)) = true) →
      ∃ new : List AttemptRec,
        (signed_query secret api_key post req retries s).2.trace = s.trace ++ new ∧
        new.length = retries + 1 ∧
        (signed_query secret api_key post req retries s).2.admits =
          s.admits + (retries + 1) ∧
        new.head?.map AttemptRec.nonce = some (pyInt (s.clock * 1000)) ∧
        List.Chain' (fun a b : Int => a < b) (new.map AttemptRec.nonce) := by
  intro retries
  induction retries with
  | zero =>
    intro req s hfail
    obtain ⟨e, he, hce, _⟩ := is5xx_elim (hfail 0 (le_refl 0))
    rw [Nat.add_zero] at he
    rw [signed_query_budget_zero secret api_key post req s e he hce]
    refine ⟨[⟨(build_envelope secret api_key req s.clock).nonce,
             (build_envelope secret api_key req s.clock).req,
             (build_envelope secret api_key req s.clock).headers⟩], rfl, rfl, rfl, ?_, ?_⟩
    · rfl
    · exact List.chain'_singleton _
  | succ r ih =>
    intro req s hfail
    obtain ⟨e, he, hce, hse⟩ := is5xx_elim (hfail 0 (Nat.zero_le _))
    rw [Nat.add_zero] at he
    rw [signed_query_retry secret api_key post req r s e he hce hse]
    have hstep : (sleep3 (signedStep secret api_key req s)).attempts =
        s.attempts + 1 := rfl
    have h1 : ∀ i, i ≤ r →
        is5xx (post ((sleep3 (signedStep secret api_key req s)).attempts + i)) = true := by
      intro i hi
      rw [hstep]
      have h2 := hfail (i + 1) (by omega)
      rwa [show s.attempts + (i + 1) = s.attempts + 1 + i by omega] at h2
    obtain ⟨new2, c1, c2, c3, c4, c5⟩ :=
      ih (build_envelope secret api_key req s.clock).req
        (sleep3 (signedStep secret api_key req s)) h1
    refine ⟨⟨(build_envelope secret api_key req s.clock).nonce,
             (build_envelope secret api_key req s.clock).req,
             (build_envelope secret api_key req s.clock).headers⟩ :: new2,
            ?_, ?_, ?_, rfl, ?_⟩
    · rw [c1, sleep3_trace, signedStep_trace]
      simp [List.append_assoc]
    · simp [c2]
    · rw [c3, sleep3_admits, signedStep_admits]
      omega
    · rw [List.map_cons]
      rw [List.chain'_cons']
      refine ⟨?_, c5⟩
      intro y hy
      rw [List.head?_map] at hy
      rw [c4] at hy
      rw [Option.mem_def, Option.some.injEq] at hy
      subst hy
      have hclock : s.clock + 3 ≤ (sleep3 (signedStep secret api_key req s)).clock := by
        rw [sleep3_clock]
        have := le_signedStep_clock secret api_key req s
        linarith
      refine pyInt_lt_pyInt ?_
      have : (s.clock + 3) * 1000 ≤ (sleep3 (signedStep secret api_key req s)).clock * 1000 := by
        have h1000 : (0 : ℚ) ≤ 1000 := by norm_num
        exact mul_le_mul_of_nonneg_right hclock h1000
      linarith

/-! ## C3 — rate limiter -/

/-- **C3.**  The rate limiter keeps the last 5 request timestamps; on each
admit it records the current time, and when at least 5 timestamps are
recorded and the gap between the 5th-oldest and newest is at most 1 second
it sleeps for the remainder of that second before evicting the oldest.
Consequently 5 `admit()` calls issued with no delay starting at `t0` finish
at `t0 + 1` (at least 1 second from the 1st call to the return of the 5th),
and a 6th call issued at least 1 second after the 5th does not block
(sleeps 0). -/
theorem claim_C3_rate_limiter :
    (∀ (timer : List ℚ) (now : ℚ), timer.length = 4 →
        rate_limit timer now =
          ((timer ++ [now]).drop 1,
           if now - timer.getD 0 0 ≤ 1 then 1 - (now - timer.getD 0 0) else 0)) ∧
    (∀ t0 : ℚ, iterAdmit 5 ([], t0) = ([t0, t0, t0, t0], t0 + 1)) ∧
    (∀ t0 t6 : ℚ, t0 + 1 ≤ t6 → (rate_limit [t0, t0, t0, t0] t6).2 = 0) := by
  refine ⟨?_, ?_, ?_⟩
  · intro timer now h
    match timer, h with
    | [a, b, c, d], _ => simp [rate_limit]
  · intro t0
    simp [iterAdmit, admitClocked, rate_limit]
  · intro t0 t6 h
    simp only [rate_limit, List.cons_append, List.nil_append, List.length_cons,
      List.length_nil]
    norm_num
    intro h1
    linarith

/-- Witness for C3 at `timer = [0,0,0,0]`, `now = 2`, `t0 = 0`, `t6 = 2`. -/
theorem claim_C3_rate_limiter_witness :
    rate_limit [0, 0, 0, 0] 2 =
        ((([0, 0, 0, 0] : List ℚ) ++ [2]).drop 1,
         if (2 : ℚ) - ([(0 : ℚ), 0, 0, 0].getD 0 0) ≤ 1
         then 1 - ((2 : ℚ) - ([(0 : ℚ), 0, 0, 0].getD 0 0)) else 0) ∧
    iterAdmit 5 ([], 0) = ([0, 0, 0, 0], 0 + 1) ∧
    (rate_limit [0, 0, 0, 0] 2).2 = 0 :=
  ⟨claim_C3_rate_limiter.1 [0, 0, 0, 0] 2 rfl,
   claim_C3_rate_limiter.2.1 0,
   claim_C3_rate_limiter.2.2 0 2 (by norm_num)⟩

/-! ## C9 — discarded `str.join` results in `chart_data` and
`public_trade_history` -/

/-- **C9.**  The query string `chart_data` passes to `public_query` is
exactly `'returnChartData&currencyPair=' + currency_pair`: the `start`,
`end` and `period` arguments never reach the outgoing request because the
results of the `str.join` calls are discarded; the same omission holds for
`public_trade_history`. -/
theorem claim_C9_join_results_discarded :
    ∀ (currency_pair start endT : String) (period startN : Int) (endQ : ℚ),
      chart_data_request currency_pair period start endT =
          "returnChartData&currencyPair=" ++ currency_pair ∧
      public_trade_history_request currency_pair startN endQ =
          "returnChartData&currencyPair=" ++ currency_pair := by
  intro currency_pair start endT period startN endQ
  exact ⟨rfl, rfl⟩

/-! ## C6 — the secret appears in `__repr__` -/

/-- **C6 fails on the code.**  `__repr__` interpolates `self.secret_key`
into its result, so two clients differing only in the secret produce
different strings, and the secret appears verbatim: the claim that the
textual representation is independent of the secret is refuted at
`secret = "aaaa"` vs `secret = "bbbb"`. -/
theorem claim_C6_repr_exposes_secret :
    reprMethod (Client.init "key" "aaaa" false false) =
        "Poloniex (Key: key, Secret: b\x27aaaa\x27, Connected: False)" ∧
    reprMethod (Client.init "key" "aaaa" false false) ≠
      reprMethod (Client.init "key" "bbbb" false false) := by
  constructor
  · rfl
  · decide

/-! ## C7 — secret stored as text, not bytes, by `update_keys` -/

/-- **C7 fails on the code for `update_keys`.**  Construction stores the
secret as its latin-1 bytes, but `update_keys` (line 165) stores the `str`
argument itself; after a rotation the stored secret is text, and
`hmac.new` — which requires a bytes key — would raise `TypeError` on the
next `signed_query`. -/
theorem claim_C7_update_keys_stores_text :
    (Client.init "api" "secret" false false).secret_key =
        .bytes (latin1Encode "secret") ∧
    hmacKey (Client.init "api" "secret" false false).secret_key =
        some (latin1Encode "secret") ∧
    (update_keys (Client.init "api" "secret" false false)
        "api2" "newsecret" false false).secret_key = .str "newsecret" ∧
    hmacKey (update_keys (Client.init "api" "secret" false false)
        "api2" "newsecret" false false).secret_key = none :=
  ⟨rfl, rfl, rfl, rfl⟩

/-! ## C1 — nonces are not monotonic under a frozen clock -/

/-- **C1 fails on the code.**  `signed_query` sets
`req['nonce'] = int(time.time()*1000)` with no monotonicity guard, so two
calls made while the clock reads the same value send the same nonce: the
sequence of issued nonces is not strictly increasing when the clock does not
advance, and no `last value + 1` fallback exists in the source. -/
theorem claim_C1_nonce_not_monotonic :
    frozenClockNonces = [1700000000000, 1700000000000] ∧
    ¬ List.Chain' (fun a b : Int => a < b) frozenClockNonces := by
  have h : frozenClockNonces = [1700000000000, 1700000000000] := by
    norm_num [frozenClockNonces, signed_query, build_envelope, rateLimitSt,
      rate_limit, json_loads, pyInt]
  refine ⟨h, ?_⟩
  rw [h]
  simp [List.chain'_cons]

/-! ## C8 — non-retriable caught failures return the empty mapping at once -/

/-- **C8.**  On a caught exception that is not a 5xx server error, or on any
caught exception once the retry budget is 0, `public_query` and
`signed_query` return immediately (exactly one attempt, no backoff sleep)
with `dict([])` — an empty mapping carrying no partial data — rather than
raising. -/
theorem claim_C8_non_retriable_empty_dict :
    (∀ (fetch : Nat → FetchResult) (retries : Nat) (s : St) (e : PyExc),
        fetch s.attempts = .exc e → isCaught e = true → isServerError e = false →
        (public_query fetch retries s).1 = Except.ok [] ∧
        (public_query fetch retries s).2.attempts = s.attempts + 1 ∧
        (public_query fetch retries s).2.backoff = s.backoff) ∧
    (∀ (fetch : Nat → FetchResult) (s : St) (e : PyExc),
        fetch s.attempts = .exc e → isCaught e = true →
        (public_query fetch 0 s).1 = Except.ok [] ∧
        (public_query fetch 0 s).2.attempts = s.attempts + 1 ∧
        (public_query fetch 0 s).2.backoff = s.backoff) ∧
    (∀ (secret : List Nat) (api_key : String) (post : Nat → FetchResult)
        (req : Dict) (retries : Nat) (s : St) (e : PyExc),
        post s.attempts = .exc e → isCaught e = true → isServerError e = false →
        (signed_query secret api_key post req retries s).1 = Except.ok [] ∧
        (signed_query secret api_key post req retries s).2.attempts = s.attempts + 1 ∧
        (signed_query secret api_key post req retries s).2.backoff = s.backoff) ∧
    (∀ (secret : List Nat) (api_key : String) (post : Nat → FetchResult)
        (req : Dict) (s : St) (e : PyExc),
        post s.attempts = .exc e → isCaught e = true →
        (signed_query secret api_key post req 0 s).1 = Except.ok [] ∧
        (signed_query secret api_key post req 0 s).2.attempts = s.attempts + 1 ∧
        (signed_query secret api_key post req 0 s).2.backoff = s.backoff) := by
  refine ⟨?_, ?_, ?_, ?_⟩
  · intro fetch retries s e h hc hs
    rw [public_query]
    simp only [rateLimitSt]
    rw [h]
    simp only [hc]
    cases retries with
    | zero => exact ⟨rfl, rfl, rfl⟩
    | succ r => simp only [hs, Bool.false_eq_true, if_false]; exact ⟨rfl, rfl, rfl⟩
  · intro fetch s e h hc
    rw [public_query]
    simp only [rateLimitSt]
    rw [h]
    simp only [hc]
    exact ⟨rfl, rfl, rfl⟩
  · intro secret api_key post req retries s e h hc hs
    rw [signed_query]
    simp only [rateLimitSt]
    rw [h]
    simp only [hc]
    cases retries with
    | zero => exact ⟨rfl, rfl, rfl⟩
    | succ r => simp only [hs, Bool.false_eq_true, if_false]; exact ⟨rfl, rfl, rfl⟩
  · intro secret api_key post req s e h hc
    rw [signed_query]
    simp only [rateLimitSt]
    rw [h]
    simp only [hc]
    exact ⟨rfl, rfl, rfl⟩

/-- Witness for C8: a 404 with budget left, and a connection failure with
budget 0, on both query paths. -/
theorem claim_C8_non_retriable_empty_dict_witness :
    ((public_query (fun _ => .exc (.httpError 404)) 2 ⟨0, [], 0, 0, 0, []⟩).1 =
        Except.ok [] ∧
      (public_query (fun _ => .exc (.httpError 404)) 2 ⟨0, [], 0, 0, 0, []⟩).2.attempts =
        (⟨0, [], 0, 0, 0, []⟩ : St).attempts + 1 ∧
      (public_query (fun _ => .exc (.httpError 404)) 2 ⟨0, [], 0, 0, 0, []⟩).2.backoff =
        (⟨0, [], 0, 0, 0, []⟩ : St).backoff) ∧
    ((public_query (fun _ => .exc .urlError) 0 ⟨0, [], 0, 0, 0, []⟩).1 =
        Except.ok [] ∧
      (public_query (fun _ => .exc .urlError) 0 ⟨0, [], 0, 0, 0, []⟩).2.attempts =
        (⟨0, [], 0, 0, 0, []⟩ : St).attempts + 1 ∧
      (public_query (fun _ => .exc .urlError) 0 ⟨0, [], 0, 0, 0, []⟩).2.backoff =
        (⟨0, [], 0, 0, 0, []⟩ : St).backoff) ∧
    ((signed_query [1] "k" (fun _ => .exc (.httpError 404))
        [("command", "buy")] 2 ⟨0, [], 0, 0, 0, []⟩).1 = Except.ok [] ∧
      (signed_query [1] "k" (fun _ => .exc (.httpError 404))
        [("command", "buy")] 2 ⟨0, [], 0, 0, 0, []⟩).2.attempts =
        (⟨0, [], 0, 0, 0, []⟩ : St).attempts + 1 ∧
      (signed_query [1] "k" (fun _ => .exc (.httpError 404))
        [("command", "buy")] 2 ⟨0, [], 0, 0, 0, []⟩).2.backoff =
        (⟨0, [], 0, 0, 0, []⟩ : St).backoff) ∧
    ((signed_query [1] "k" (fun _ => .exc .urlError)
        [("command", "buy")] 0 ⟨0, [], 0, 0, 0, []⟩).1 = Except.ok [] ∧
      (signed_query [1] "k" (fun _ => .exc .urlError)
        [("command", "buy")] 0 ⟨0, [], 0, 0, 0, []⟩).2.attempts =
        (⟨0, [], 0, 0, 0, []⟩ : St).attempts + 1 ∧
      (signed_query [1] "k" (fun _ => .exc .urlError)
        [("command", "buy")] 0 ⟨0, [], 0, 0, 0, []⟩).2.backoff =
        (⟨0, [], 0, 0, 0, []⟩ : St).backoff) :=
  ⟨claim_C8_non_retriable_empty_dict.1 _ 2 _ (.httpError 404) rfl rfl rfl,
   claim_C8_non_retriable_empty_dict.2.1 _ _ .urlError rfl rfl,
   claim_C8_non_retriable_empty_dict.2.2.1 [1] "k" _ _ 2 _ (.httpError 404) rfl rfl rfl,
   claim_C8_non_retriable_empty_dict.2.2.2 [1] "k" _ _ _ .urlError rfl rfl⟩

/-! ## C10 — a non-JSON body raises -/

/-- **C10.**  When the HTTP call succeeds but the body is not valid JSON,
both queries raise: `public_query` decodes outside its `try`, and
`signed_query`'s `except` tuple covers neither `JSONDecodeError` nor the
exceptions of `requests.post`, which therefore also propagate. -/
theorem claim_C10_bad_json_raises :
    (∀ (fetch : Nat → FetchResult) (retries : Nat) (s : St) (raw : String),
        fetch s.attempts = .ok (.malformed raw) →
        (public_query fetch retries s).1 = Except.error .jsonDecodeError) ∧
    (∀ (secret : List Nat) (api_key : String) (post : Nat → FetchResult)
        (req : Dict) (retries : Nat) (s : St) (raw : String),
        post s.attempts = .ok (.malformed raw) →
        (signed_query secret api_key post req retries s).1 =
          Except.error .jsonDecodeError) ∧
    (∀ (secret : List Nat) (api_key : String) (post : Nat → FetchResult)
        (req : Dict) (retries : Nat) (s : St),
        post s.attempts = .exc .requestsException →
        (signed_query secret api_key post req retries s).1 =
          Except.error .requestsException) := by
  refine ⟨?_, ?_, ?_⟩
  · intro fetch retries s raw h
    rw [public_query]
    simp only [rateLimitSt]
    rw [h]
    rfl
  · intro secret api_key post req retries s raw h
    rw [signed_query]
    simp only [rateLimitSt]
    rw [h]
    rfl
  · intro secret api_key post req retries s h
    rw [signed_query]
    simp only [rateLimitSt]
    rw [h]
    rfl

/-- Witness for C10: an HTML error page body on both paths, and a
`requests` connection exception on the signed path. -/
theorem claim_C10_bad_json_raises_witness :
    (public_query (fun _ => .ok (.malformed "<html>")) 2 ⟨0, [], 0, 0, 0, []⟩).1 =
        Except.error .jsonDecodeError ∧
    (signed_query [1] "k" (fun _ => .ok (.malformed "<html>"))
        [("command", "buy")] 2 ⟨0, [], 0, 0, 0, []⟩).1 =
        Except.error .jsonDecodeError ∧
    (signed_query [1] "k" (fun _ => .exc .requestsException)
        [("command", "buy")] 2 ⟨0, [], 0, 0, 0, []⟩).1 =
        Except.error .requestsException :=
  ⟨claim_C10_bad_json_raises.1 _ 2 _ "<html>" rfl,
   claim_C10_bad_json_raises.2.1 [1] "k" _ _ 2 _ "<html>" rfl,
   claim_C10_bad_json_raises.2.2 [1] "k" _ _ 2 _ rfl⟩

/-! ## C4 — retry policy -/

/-- **C4.**  An attempt function that fails with a caught 5xx error exactly
`K` times and then succeeds: with budget `retries ≥ K` the query returns the
decoded success after exactly `K + 1` attempts with the fixed 3-second
backoff between attempts (`3K` seconds in total); with `retries < K` it
returns the unrecoverable-failure result — `dict([])` in this source — after
exactly `retries + 1` attempts.  Both `public_query` and `signed_query`. -/
theorem claim_C4_retry_policy :
    (∀ (fetch : Nat → FetchResult) (d : Dict) (K retries : Nat) (s : St),
        K ≤ retries →
        (∀ i, i < K → is5xx (fetch (s.attempts + i)) = true) →
        fetch (s.attempts + K) = .ok (.jsonDict d) →
        (public_query fetch retries s).1 = Except.ok d ∧
        (public_query fetch retries s).2.attempts = s.attempts + (K + 1) ∧
        (public_query fetch retries s).2.backoff = s.backoff + 3 * K) ∧
    (∀ (fetch : Nat → FetchResult) (K retries : Nat) (s : St),
        retries < K →
        (∀ i, i < K → is5xx (fetch (s.attempts + i)) = true) →
        (public_query fetch retries s).1 = Except.ok [] ∧
        (public_query fetch retries s).2.attempts = s.attempts + (retries + 1) ∧
        (public_query fetch retries s).2.backoff = s.backoff + 3 * retries) ∧
    (∀ (secret : List Nat) (api_key : String) (post : Nat → FetchResult)
        (d : Dict) (K retries : Nat) (req : Dict) (s : St),
        K ≤ retries →
        (∀ i, i < K → is5xx (post (s.attempts + i)) = true) →
        post (s.attempts + K) = .ok (.jsonDict d) →
        (signed_query secret api_key post req retries s).1 = Except.ok d ∧
        (signed_query secret api_key post req retries s).2.attempts =
          s.attempts + (K + 1) ∧
        (signed_query secret api_key post req retries s).2.backoff =
          s.backoff + 3 * K) ∧
    (∀ (secret : List Nat) (api_key : String) (post : Nat → FetchResult)
        (K retries : Nat) (req : Dict) (s : St),
        retries < K →
        (∀ i, i < K → is5xx (post (s.attempts + i)) = true) →
        (signed_query secret api_key post req retries s).1 = Except.ok [] ∧
        (signed_query secret api_key post req retries s).2.attempts =
          s.attempts + (retries + 1) ∧
        (signed_query secret api_key post req retries s).2.backoff =
          s.backoff + 3 * retries) := by
  refine ⟨?_, ?_, ?_, ?_⟩
  · intro fetch d K retries s h1 h2 h3
    exact public_query_success fetch d K retries s h1 h2 h3
  · intro fetch K retries s h1 h2
    exact public_query_exhaust fetch retries s (fun i hi => h2 i (by omega))
  · intro secret api_key post d K retries req s h1 h2 h3
    exact signed_query_success secret api_key post d K retries req s h1 h2 h3
  · intro secret api_key post K retries req s h1 h2
    exact signed_query_exhaust secret api_key post retries req s
      (fun i hi => h2 i (by omega))

/-- Witness for C4: one 502 then success with budget 2, and constant 503
with budget 1, on both query paths. -/
theorem claim_C4_retry_policy_witness :
    (public_query
        (fun i => if i = 0 then .exc (.httpError 502) else .ok (.jsonDict [("BTC", "1.5")]))
        2 ⟨0, [], 0, 0, 0, []⟩).1 = Except.ok [("BTC", "1.5")] ∧
    (public_query (fun _ => .exc (.httpError 503)) 1 ⟨0, [], 0, 0, 0, []⟩).2.attempts =
      (⟨0, [], 0, 0, 0, []⟩ : St).attempts + (1 + 1) ∧
    (signed_query [1, 2] "k"
        (fun i => if i = 0 then .exc (.httpError 502) else .ok (.jsonDict [("BTC", "1.5")]))
        [("command", "returnBalances")] 2 ⟨0, [], 0, 0, 0, []⟩).1 =
      Except.ok [("BTC", "1.5")] ∧
    (signed_query [1, 2] "k" (fun _ => .exc (.httpError 503))
        [("command", "buy")] 1 ⟨0, [], 0, 0, 0, []⟩).1 = Except.ok [] :=
  ⟨(claim_C4_retry_policy.1 _ [("BTC", "1.5")] 1 2 ⟨0, [], 0, 0, 0, []⟩
      (by decide) (by decide) (by decide)).1,
   (claim_C4_retry_policy.2.1 _ 2 1 ⟨0, [], 0, 0, 0, []⟩ (by decide) (by decide)).2.1,
   (claim_C4_retry_policy.2.2.1 [1, 2] "k" _ [("BTC", "1.5")] 1 2
      [("command", "returnBalances")] ⟨0, [], 0, 0, 0, []⟩
      (by decide) (by decide) (by decide)).1,
   (claim_C4_retry_policy.2.2.2 [1, 2] "k" _ 2 1 [("command", "buy")]
      ⟨0, [], 0, 0, 0, []⟩ (by decide) (by decide)).1⟩

/-! ## C2 — the Sign header is the HMAC-SHA512 of the encoded body -/

/-- **C2.**  The `Sign` header of every attempt equals the lowercase
hexadecimal HMAC-SHA512, keyed by the stored secret, of the url-form-encoded
request body (`data = urlencode(req)`); every record a `signed_query` run
adds to its trace carries such headers for its own body; and the signature
is a function of the secret and the canonical body alone — two envelopes
with the same secret and the same encoded body carry the same signature. -/
theorem claim_C2_sign_is_hmac_sha512 :
    (∀ (secret : List Nat) (api_key : String) (req : Dict) (clock : ℚ),
        (build_envelope secret api_key req clock).headers =
          [("Key", api_key),
           ("Sign", sign secret (build_envelope secret api_key req clock).data)] ∧
        (build_envelope secret api_key req clock).data =
          urlencode (build_envelope secret api_key req clock).req) ∧
    (∀ (secret : List Nat) (api_key : String) (post : Nat → FetchResult)
        (req : Dict) (retries : Nat) (s : St) (rec : AttemptRec),
        rec ∈ (signed_query secret api_key post req retries s).2.trace →
        rec ∈ s.trace ∨
          rec.headers =
            [("Key", api_key), ("Sign", sign secret (urlencode rec.reqDict))]) ∧
    (∀ (secret : List Nat) (k1 k2 : String) (r1 r2 : Dict) (c1 c2 : ℚ),
        (build_envelope secret k1 r1 c1).data = (build_envelope secret k2 r2 c2).data →
        List.lookup "Sign" (build_envelope secret k1 r1 c1).headers =
          List.lookup "Sign" (build_envelope secret k2 r2 c2).headers) := by
  refine ⟨?_, ?_, ?_⟩
  · intro secret api_key req clock
    exact ⟨rfl, rfl⟩
  · intro secret api_key post req retries s rec hmem
    rcases signed_query_trace_mem secret api_key post retries req s rec hmem with h | h
    · exact Or.inl h
    · exact Or.inr h.2
  · intro secret k1 k2 r1 r2 c1 c2 h
    have hl : ∀ (k sig : String),
        List.lookup "Sign" [("Key", k), ("Sign", sig)] = some sig := fun k sig => rfl
    rw [show (build_envelope secret k1 r1 c1).headers =
          [("Key", k1), ("Sign", sign secret (build_envelope secret k1 r1 c1).data)]
        from rfl,
        show (build_envelope secret k2 r2 c2).headers =
          [("Key", k2), ("Sign", sign secret (build_envelope secret k2 r2 c2).data)]
        from rfl, hl, hl, h]

/-- Witness for C2: a one-attempt successful run, whose single trace record
carries the HMAC headers, and two envelopes differing only in the access key
(hence with equal bodies) carrying equal signatures. -/
theorem claim_C2_sign_is_hmac_sha512_witness :
    ((⟨(build_envelope [1] "k" [("command", "returnBalances")] 0).nonce,
       (build_envelope [1] "k" [("command", "returnBalances")] 0).req,
       (build_envelope [1] "k" [("command", "returnBalances")] 0).headers⟩ : AttemptRec) ∈
        (⟨0, [], 0, 0, 0, []⟩ : St).trace ∨
      (AttemptRec.mk (build_envelope [1] "k" [("command", "returnBalances")] 0).nonce
        (build_envelope [1] "k" [("command", "returnBalances")] 0).req
        (build_envelope [1] "k" [("command", "returnBalances")] 0).headers).headers =
        [("Key", "k"),
         ("Sign", sign [1] (urlencode
           (AttemptRec.mk (build_envelope [1] "k" [("command", "returnBalances")] 0).nonce
             (build_envelope [1] "k" [("command", "returnBalances")] 0).req
             (build_envelope [1] "k" [("command", "returnBalances")] 0).headers).reqDict))]) ∧
    List.lookup "Sign" (build_envelope [1] "a" [("command", "buy")] 0).headers =
      List.lookup "Sign" (build_envelope [1] "b" [("command", "buy")] 0).headers :=
  ⟨claim_C2_sign_is_hmac_sha512.2.1 [1] "k" (fun _ => .ok (.jsonDict []))
      [("command", "returnBalances")] 0 ⟨0, [], 0, 0, 0, []⟩ _ (List.Mem.head _),
   claim_C2_sign_is_hmac_sha512.2.2 [1] "a" "b" [("command", "buy")]
      [("command", "buy")] 0 0 rfl⟩

/-! ## C5 — every retry is a fully fresh attempt -/

/-- **C5.**  In a `signed_query` run whose attempts all fail retriably (the
scenario in which every retry happens), each of the `retries + 1` attempts
re-runs rate-limit admission (`admits` grows by one per attempt), generates
a new nonce, and recomputes the signature over the new body: the envelope
sent on each attempt is the caller's dict with that attempt's own nonce,
signed afresh over exactly that body, and the nonces of successive attempts
are strictly increasing, hence pairwise distinct. -/
theorem claim_C5_fresh_attempt_per_retry :
    ∀ (secret : List Nat) (api_key : String) (post : Nat → FetchResult)
      (req : Dict) (retries : Nat) (s : St),
      s.trace = [] →
      (∀ i, i ≤ retries → is5xx (post (s.attempts + i)) = true) →
      (signed_query secret api_key post req retries s).2.trace.length = retries + 1 ∧
      (signed_query secret api_key post req retries s).2.admits =
        s.admits + (retries + 1) ∧
      List.Chain' (fun a b : Int => a < b)
        ((signed_query secret api_key post req retries s).2.trace.map
          AttemptRec.nonce) ∧
      List.Pairwise (fun a b : AttemptRec => a.nonce ≠ b.nonce)
        (signed_query secret api_key post req retries s).2.trace ∧
      ∀ rec ∈ (signed_query secret api_key post req retries s).2.trace,
        rec.reqDict = dictSet req "nonce" (toString rec.nonce) ∧
        rec.headers =
          [("Key", api_key), ("Sign", sign secret (urlencode rec.reqDict))] := by
  intro secret api_key post req retries s htrace hfail
  obtain ⟨new, h1, h2, h3, _, h5⟩ :=
    signed_query_allfail secret api_key post retries req s hfail
  have htr : (signed_query secret api_key post req retries s).2.trace = new := by
    rw [h1, htrace, List.nil_append]
  refine ⟨?_, h3, ?_, ?_, ?_⟩
  · rw [htr, h2]
  · rw [htr]
    exact h5
  · rw [htr]
    have hp : List.Pairwise (fun a b : Int => a < b) (new.map AttemptRec.nonce) :=
      List.chain'_iff_pairwise.1 h5
    have hp2 : List.Pairwise (fun a b : Int => a ≠ b) (new.map AttemptRec.nonce) :=
      hp.imp fun h => ne_of_lt h
    exact (List.pairwise_map).1 hp2
  · intro rec hmem
    rcases signed_query_trace_mem secret api_key post retries req s rec hmem with h | h
    · rw [htrace] at h
      exact absurd h (List.not_mem_nil rec)
    · exact h

/-- Witness for C5: budget 1 (two attempts), every attempt a 502. -/
theorem claim_C5_fresh_attempt_per_retry_witness :
    (signed_query [7] "k" (fun _ => .exc (.httpError 502)) [("command", "buy")] 1
        ⟨0, [], 0, 0, 0, []⟩).2.trace.length = 1 + 1 ∧
    (signed_query [7] "k" (fun _ => .exc (.httpError 502)) [("command", "buy")] 1
        ⟨0, [], 0, 0, 0, []⟩).2.admits =
      (⟨0, [], 0, 0, 0, []⟩ : St).admits + (1 + 1) ∧
    List.Chain' (fun a b : Int => a < b)
      ((signed_query [7] "k" (fun _ => .exc (.httpError 502)) [("command", "buy")] 1
          ⟨0, [], 0, 0, 0, []⟩).2.trace.map AttemptRec.nonce) ∧
    List.Pairwise (fun a b : AttemptRec => a.nonce ≠ b.nonce)
      (signed_query [7] "k" (fun _ => .exc (.httpError 502)) [("command", "buy")] 1
          ⟨0, [], 0, 0, 0, []⟩).2.trace ∧
    ∀ rec ∈ (signed_query [7] "k" (fun _ => .exc (.httpError 502)) [("command", "buy")] 1
        ⟨0, [], 0, 0, 0, []⟩).2.trace,
      rec.reqDict = dictSet [("command", "buy")] "nonce" (toString rec.nonce) ∧
      rec.headers = [("Key", "k"), ("Sign", sign [7] (urlencode rec.reqDict))] :=
  claim_C5_fresh_attempt_per_retry [7] "k" (fun _ => .exc (.httpError 502))
    [("command", "buy")] 1 ⟨0, [], 0, 0, 0, []⟩ rfl (by decide)

end Poloniex

